import Mathlib

/-!
Verification of the STRAT scanner core (`streamlit_app.py`): a shallow
embedding of its value-extraction layer (`get_val`), pattern classifier
(`strat_type`), continuity evaluator (`calculate_ftfc`) and scan loop,
with theorems settling the specified properties.

Python floats are modelled as rationals plus a NaN element; pandas rows
(flat-indexed or MultiIndexed) as association lists; the yfinance
provider as an environment of fetch functions returning either an
exception (`Except.error`) or an ordered bar list.
-/

/-- A Python float: a finite value (modelled as a rational) or NaN. -/
inductive PyFloat
  | num (q : ℚ)
  | nan
  deriving DecidableEq, Repr

namespace PyFloat

/-- Python `a < b` on floats: false whenever either side is NaN. -/
def lt : PyFloat → PyFloat → Bool
  | num a, num b => decide (a < b)
  | _, _ => false

/-- Python `a > b` on floats. -/
def gt (a b : PyFloat) : Bool := lt b a

/-- Python `a >= b` on floats: false whenever either side is NaN. -/
def ge : PyFloat → PyFloat → Bool
  | num a, num b => decide (b ≤ a)
  | _, _ => false

end PyFloat

/-- A raw cell value stored in a pandas row, as seen by `float(...)`:
a finite number, a NaN, or something `float` rejects. A non-numeric
string raises `ValueError` (which `get_val`'s except tuple catches) and
None raises `TypeError` (which it does not catch); since on a
MultiIndexed row the post-catch fallback raises again in either case,
both end as a raised exception and are folded into one constructor. -/
inductive Value
  | num (q : ℚ)
  | nan
  | nonNumeric
  deriving DecidableEq, Repr

/-- Python `float(v)`: succeeds on numbers and on NaN (returning NaN),
raises (`ValueError`/`TypeError`) on a non-numeric value. Exceptions are
modelled as `Except.error` carrying the message. -/
def toFloat : Value → Except String PyFloat
  | .num q => .ok (.num q)
  | .nan => .ok .nan
  | .nonNumeric => .error "ValueError: could not convert value to float"

/-- A pandas row (one bar): flat-indexed (old yfinance / single ticker),
keyed by column name; or MultiIndexed (modern yfinance batch), keyed by
(column, ticker) pairs. -/
inductive Row
  | flat (entries : List (String × Value))
  | multi (entries : List ((String × String) × Value))
  deriving DecidableEq, Repr

/-- `row[col]` on a flat row: the value stored under `col`, if any. -/
def lookupFlat (entries : List (String × Value)) (col : String) : Option Value :=
  (entries.find? (fun e => e.1 == col)).map (·.2)

/-- `row[(col, ticker)]` on a MultiIndexed row. -/
def lookupMulti (entries : List ((String × String) × Value))
    (col ticker : String) : Option Value :=
  (entries.find? (fun e => e.1.1 == col && e.1.2 == ticker)).map (·.2)

/-- `row[col].iloc[0]` on a MultiIndexed row: the first value whose key
has `col` at level 0. -/
def firstAtCol (entries : List ((String × String) × Value))
    (col : String) : Option Value :=
  (entries.find? (fun e => e.1.1 == col)).map (·.2)

/-- The final `float(row[col])` of `get_val` when `row` is MultiIndexed
(line 51, reached only after the try block failed): it always raises.
`row[col]` raises `KeyError` when `col` is absent at level 0; otherwise
it selects a sub-Series, and `float` of a Series raises `TypeError`
(modern pandas for any length, every pandas version for two or more
entries), while for a single-entry selection in old pandas it
re-attempts exactly the value whose conversion the try block already
failed on. It never rescues with a value. -/
def multiFallback (entries : List ((String × String) × Value))
    (col : String) : Except String PyFloat :=
  match firstAtCol entries col with
  | some _ => .error "TypeError: cannot convert the series to float"
  | none => .error ("KeyError: " ++ col)

/-- `get_val(row, col, ticker)`: extract a field handling both
MultiIndex and flat rows. On a MultiIndexed row it tries
`(col, ticker)` when the hint is supplied and present, else the first
value under `col`; a `KeyError`, `IndexError` or `ValueError` inside
that attempt is swallowed and the final `float(row[col])` runs, which
on a MultiIndexed row raises again (see `multiFallback`) — a `TypeError`
inside the try propagates directly, so every failed attempt ends as an
error either way. On a flat row the final conversion's errors propagate
to the caller. -/
def get_val (row : Row) (col : String) (ticker : Option String) :
    Except String PyFloat :=
  match row with
  | .multi entries =>
    let tried : Except String PyFloat :=
      match ticker with
      | some t =>
        match lookupMulti entries col t with
        | some v => toFloat v
        | none =>
          match firstAtCol entries col with
          | some v => toFloat v
          | none => .error ("KeyError: " ++ col)
      | none =>
        match firstAtCol entries col with
        | some v => toFloat v
        | none => .error ("KeyError: " ++ col)
    match tried with
    | .ok v => .ok v
    | .error _ => multiFallback entries col
  | .flat entries =>
    match lookupFlat entries col with
    | some v => toFloat v
    | none => .error ("KeyError: " ++ col)

/-- The classification cascade of `strat_type` on the six extracted
prices, verbatim from the source (lines 68-79). -/
def classifyVals (prev_h prev_l curr_h curr_l curr_o curr_c : PyFloat) : String :=
  let candle_color := if curr_c.ge curr_o then "Green" else "Red"
  if curr_h.lt prev_h && curr_l.gt prev_l then "1 (Inside)"
  else if curr_h.gt prev_h && curr_l.lt prev_l then "3 (Outside)"
  else if curr_h.gt prev_h then "2U " ++ candle_color
  else if curr_l.lt prev_l then "2D " ++ candle_color
  else "Undefined"

/-- The six sequential `get_val` calls at the top of `strat_type`; the
first raised exception aborts the sequence. -/
def extractSix (prev curr : Row) (ticker : Option String) :
    Except String (PyFloat × PyFloat × PyFloat × PyFloat × PyFloat × PyFloat) := do
  let prev_h ← get_val prev "High" ticker
  let prev_l ← get_val prev "Low" ticker
  let curr_h ← get_val curr "High" ticker
  let curr_l ← get_val curr "Low" ticker
  let curr_o ← get_val curr "Open" ticker
  let curr_c ← get_val curr "Close" ticker
  pure (prev_h, prev_l, curr_h, curr_l, curr_o, curr_c)

/-- `strat_type(prev, curr, ticker)`: extract the six prices (a caught
exception is rendered as an `"Error: ..."` string), then classify. -/
def strat_type (prev curr : Row) (ticker : Option String) : String :=
  match extractSix prev curr ticker with
  | .error e => "Error: " ++ e
  | .ok (prev_h, prev_l, curr_h, curr_l, curr_o, curr_c) =>
    classifyVals prev_h prev_l curr_h curr_l curr_o curr_c

/-- Python's `needle in hay` on lists of characters: needle starts hay. -/
def listStart : List Char → List Char → Bool
  | [], _ => true
  | _ :: _, [] => false
  | a :: as, b :: bs => a == b && listStart as bs

/-- Needle occurs contiguously somewhere in hay. -/
def listHas (needle : List Char) : List Char → Bool
  | [] => needle.isEmpty
  | b :: bs => listStart needle (b :: bs) || listHas needle bs

/-- Python's substring test `needle in hay` on strings. -/
def pyIn (needle hay : String) : Bool := listHas needle.data hay.data

/-- The provider environment: the main-timeframe download plus the three
higher-timeframe downloads `calculate_ftfc` performs itself. `.error`
models a raised exception, `.ok` the (possibly empty) bar list. -/
structure Env where
  download : String → Except String (List Row)
  monthly : String → Except String (List Row)
  weekly : String → Except String (List Row)
  quarterly : String → Except String (List Row)

/-- `float(data.iloc[-1][("Open", ticker)])` resp.
`float(data.iloc[-1]["Open"])` inside `calculate_ftfc`. -/
def openOf (row : Row) (ticker : String) : Except String PyFloat :=
  match row with
  | .multi entries =>
    match lookupMulti entries "Open" ticker with
    | some v => toFloat v
    | none => .error "KeyError: Open"
  | .flat entries =>
    match lookupFlat entries "Open" with
    | some v => toFloat v
    | none => .error "KeyError: Open"

/-- One higher-timeframe leg of `calculate_ftfc`: fetch, and if the data
is non-empty compare `current_close` to the last bar's open. Any raised
exception (fetch failure, missing/non-convertible open) is swallowed
(`except: pass`) and the leg contributes no tag. -/
def ftfcLeg (fetched : Except String (List Row)) (ticker : String)
    (current_close : PyFloat) (period : String) : Option String :=
  match fetched with
  | .error _ => none
  | .ok data =>
    if data.isEmpty then none
    else
      match data.getLast? with
      | none => none
      | some row =>
        match openOf row ticker with
        | .error _ => none
        | .ok o =>
          if current_close.gt o then some (period ++ ": Bullish")
          else if current_close.lt o then some (period ++ ": Bearish")
          else none

/-- The second leg of `calculate_ftfc`: Quarterly when the active
timeframe is 3-Month, Weekly otherwise. -/
def secondaryLeg (env : Env) (ticker : String) (current_close : PyFloat)
    (is_quarterly : Bool) : Option String :=
  if is_quarterly then ftfcLeg (env.quarterly ticker) ticker current_close "Q"
  else ftfcLeg (env.weekly ticker) ticker current_close "W"

/-- `calculate_ftfc(ticker, current_close, is_quarterly)`: Monthly leg
always; Quarterly or Weekly leg depending on the flag; join the resolved
tags with `", "` or return the `"N/A"` sentinel. -/
def calculate_ftfc (env : Env) (ticker : String) (current_close : PyFloat)
    (is_quarterly : Bool) : String :=
  let mTag := ftfcLeg (env.monthly ticker) ticker current_close "M"
  let sTag := secondaryLeg env ticker current_close is_quarterly
  let ftfc_results := mTag.toList ++ sTag.toList
  if ftfc_results.isEmpty then "N/A" else String.intercalate ", " ftfc_results

/-- The four timeframes offered by the selectbox. -/
inductive Timeframe
  | Daily | Weekly | Monthly | ThreeMonth
  deriving DecidableEq, Repr

/-- `min_candles_map`: minimum candles needed per timeframe. -/
def min_candles_map : Timeframe → Nat
  | .ThreeMonth => 2
  | _ => 3

/-- `is_3m = (timeframe == "3-Month")`. -/
def isQuarterly (tf : Timeframe) : Bool := decide (tf = .ThreeMonth)

/-- The user-selected scan settings: timeframe and the three filters. -/
structure ScanConfig where
  timeframe : Timeframe
  prev_patterns : List String
  curr_patterns : List String
  ftfc_filter : List String

/-- `data.iloc[-k]`: the k-th bar from the end, none (IndexError) when
out of range. -/
def iloc (data : List Row) (k : Nat) : Option Row :=
  if 1 ≤ k ∧ k ≤ data.length then data.get? (data.length - k) else none

/-- Lines 279-293: the previous/current pattern computation. In the 3M
branch the previous pattern is overwritten with the `"N/A (3M)"` marker;
otherwise both patterns come from `strat_type` on consecutive bar pairs.
Also returns the current bar (used later for Close/Open extraction). -/
def computePatterns (is_3m : Bool) (data : List Row) (ticker : String) :
    Option (String × String × Row) :=
  if is_3m && decide (2 ≤ data.length) then
    match iloc data 2, iloc data 1 with
    | some prev, some curr =>
      some ("N/A (3M)", strat_type prev curr (some ticker), curr)
    | _, _ => none
  else
    match iloc data 3, iloc data 2, iloc data 1 with
    | some prev_prev, some prev, some curr =>
      some (strat_type prev_prev prev (some ticker),
            strat_type prev curr (some ticker), curr)
    | _, _, _ => none

/-- Lines 301-306: the pattern-filter predicate. When the previous
pattern is the 3M `"N/A (3M)"` marker only the current filter is
consulted. -/
def patternMatch (is_3m : Bool) (prev_patterns curr_patterns : List String)
    (prev_candle curr_candle : String) : Bool :=
  if is_3m && prev_candle == "N/A (3M)" then
    curr_patterns.isEmpty || curr_patterns.contains curr_candle
  else
    (prev_patterns.isEmpty || prev_patterns.contains prev_candle) &&
    (curr_patterns.isEmpty || curr_patterns.contains curr_candle)

/-- Lines 319-331: the FTFC filter predicate (true = keep the symbol). -/
def ftfcPass (ftfc_filter : List String) (ftfc_str : String) : Bool :=
  if ftfc_filter.contains "Any" then true
  else if ftfc_filter.contains "Both Bullish" then
    (pyIn "M: Bullish" ftfc_str && pyIn "W: Bullish" ftfc_str) ||
    (pyIn "M: Bullish" ftfc_str && pyIn "Q: Bullish" ftfc_str)
  else if ftfc_filter.contains "Both Bearish" then
    (pyIn "M: Bearish" ftfc_str && pyIn "W: Bearish" ftfc_str) ||
    (pyIn "M: Bearish" ftfc_str && pyIn "Q: Bearish" ftfc_str)
  else
    (ftfc_filter.filter (fun f => f != "Any")).any (fun f => pyIn f ftfc_str)

/-- Line 338: `"Up" if curr_close > curr_open else "Down"`. -/
def rowDirection (curr_close curr_open : PyFloat) : String :=
  if curr_close.gt curr_open then "Up" else "Down"

/-- Floor of a rational, via floor division of numerator by
denominator (kernel-computable). -/
def ratFloor (q : ℚ) : ℤ := Int.fdiv q.num q.den

/-- Round-half-even on rationals (Python's `round` tie-breaking). -/
def roundHalfEven (q : ℚ) : ℤ :=
  let f : ℤ := ratFloor q
  let r : ℚ := q - f
  if r < 1 / 2 then f
  else if 1 / 2 < r then f + 1
  else if f % 2 = 0 then f else f + 1

/-- `round(x, 2)` on the float model; NaN rounds to NaN. -/
def round2 : PyFloat → PyFloat
  | .num q => .num ((roundHalfEven (q * 100) : ℚ) / 100)
  | .nan => .nan

/-- One emitted scan-result row (line 334-341). -/
structure ResultRow where
  ticker : String
  prev_candle : String
  curr_candle : String
  direction : String
  close_price : PyFloat
  ftfc : String
  deriving DecidableEq, Repr

/-- The per-symbol body of the scan loop (lines 247-341). Every
`continue` and every exception caught by the per-symbol `except`
(provider failure, IndexError, extraction failure) yields `none`;
`some row` is the row appended to `results`. -/
def processSymbol (env : Env) (cfg : ScanConfig) (ticker : String) :
    Option ResultRow :=
  match env.download ticker with
  | .error _ => none
  | .ok data =>
    if data.isEmpty || decide (data.length < min_candles_map cfg.timeframe) then none
    else
      match computePatterns (isQuarterly cfg.timeframe) data ticker with
      | none => none
      | some (prev_candle, curr_candle, curr) =>
        if pyIn "Error" prev_candle || pyIn "Error" curr_candle then none
        else if !patternMatch (isQuarterly cfg.timeframe) cfg.prev_patterns
                  cfg.curr_patterns prev_candle curr_candle then none
        else
          match get_val curr "Close" (some ticker), get_val curr "Open" (some ticker) with
          | .ok curr_close, .ok curr_open =>
            let ftfc_str := calculate_ftfc env ticker curr_close (isQuarterly cfg.timeframe)
            if !ftfcPass cfg.ftfc_filter ftfc_str then none
            else some {
              ticker := ticker
              prev_candle := prev_candle
              curr_candle := curr_candle
              direction := rowDirection curr_close curr_open
              close_price := round2 curr_close
              ftfc := ftfc_str }
          | _, _ => none

/-- The scan loop over the ticker list, accumulating result rows in
input order. -/
def scanLoop (env : Env) (cfg : ScanConfig) : List String → List ResultRow
  | [] => []
  | t :: ts =>
    match processSymbol env cfg t with
    | some row => row :: scanLoop env cfg ts
    | none => scanLoop env cfg ts

/-! ## Spec-side reference definitions (for the refinement claim C1) -/

/-- Candle color per the spec. -/
inductive Color
  | Green | Red
  deriving DecidableEq, Repr

/-- The spec's closed pattern-label enumeration. -/
inductive PatternLabel
  | Inside
  | Outside
  | DirectionalUp (c : Color)
  | DirectionalDown (c : Color)
  | Undefined
  deriving DecidableEq, Repr

/-- Modelled from the spec: the classification algorithm of spec 4.2,
written from the spec's words (precedence cascade over the two bars,
color from close vs open with the inclusive boundary). -/
def classifySpec (prev_h prev_l curr_h curr_l curr_o curr_c : ℚ) : PatternLabel :=
  let color : Color := if curr_c ≥ curr_o then .Green else .Red
  if curr_h < prev_h ∧ curr_l > prev_l then .Inside
  else if curr_h > prev_h ∧ curr_l < prev_l then .Outside
  else if curr_h > prev_h then .DirectionalUp color
  else if curr_l < prev_l then .DirectionalDown color
  else .Undefined

/-- The source's string rendering of each spec label. -/
def labelString : PatternLabel → String
  | .Inside => "1 (Inside)"
  | .Outside => "3 (Outside)"
  | .DirectionalUp .Green => "2U Green"
  | .DirectionalUp .Red => "2U Red"
  | .DirectionalDown .Green => "2D Green"
  | .DirectionalDown .Red => "2D Red"
  | .Undefined => "Undefined"

/-- The source cascade agrees pointwise with the spec cascade (shared
helper). -/
lemma classifyVals_spec (ph pl ch cl co cc : ℚ) :
    classifyVals (.num ph) (.num pl) (.num ch) (.num cl) (.num co) (.num cc)
      = labelString (classifySpec ph pl ch cl co cc) := by
  simp only [classifyVals, classifySpec, PyFloat.lt, PyFloat.gt, PyFloat.ge,
    Bool.and_eq_true, decide_eq_true_eq, gt_iff_lt, ge_iff_le]
  split_ifs <;> simp_all [labelString]

/-- C1: on every pair of bars with extractable numeric fields, the source
classifier agrees with the spec's precedence cascade (Inside, then
Outside, then DirectionalUp, then DirectionalDown, then Undefined, with
Green exactly when close >= open). -/
theorem strat_classifier_matches_spec (ph pl ch cl co cc : ℚ) :
    classifyVals (.num ph) (.num pl) (.num ch) (.num cl) (.num co) (.num cc)
      = labelString (classifySpec ph pl ch cl co cc) :=
  classifyVals_spec ph pl ch cl co cc

/-! ## Concrete fixtures for counterexamples and witnesses -/

/-- A flat OHLC bar with the given high, low, open, close. -/
def flatBar (h l o c : ℚ) : Row :=
  .flat [("Open", .num o), ("High", .num h), ("Low", .num l), ("Close", .num c)]

/-- A provider environment whose main download returns three bars, the
last one closing exactly at its open (close = open = 100); the monthly
fetch resolves bullish, the weekly fetch raises, the quarterly fetch is
empty. -/
def envFlatClose : Env :=
  { download := fun _ => .ok [flatBar 100 90 1 2, flatBar 110 80 3 4, flatBar 105 95 100 100]
    monthly := fun _ => .ok [flatBar 0 0 95 0]
    weekly := fun _ => .error "network failure"
    quarterly := fun _ => .ok [] }

/-- Daily scan with all pattern filters left at the permissive default
and the FTFC filter on "Any". -/
def cfgDailyAny : ScanConfig :=
  { timeframe := .Daily
    prev_patterns := []
    curr_patterns := []
    ftfc_filter := ["Any"] }

/-- C2 counterexample: the current bar of `envFlatClose` has
close = open = 100, yet the emitted row's direction is "Down", refuting
the claim that close = open is reported as Up (the code uses the strict
`curr_close > curr_open`). -/
theorem direction_counterexample :
    get_val (flatBar 105 95 100 100) "Close" (some "AAPL") = .ok (.num 100) ∧
    get_val (flatBar 105 95 100 100) "Open" (some "AAPL") = .ok (.num 100) ∧
    (scanLoop envFlatClose cfgDailyAny ["AAPL"]).map (fun r => r.direction)
      = ["Down"] :=
  ⟨rfl, rfl, rfl⟩

/-- C2 amended: the direction field is Up exactly when the current bar's
close is strictly greater than its open, and Down otherwise; in
particular a bar whose close equals its open is reported as Down. -/
theorem direction_strict_boundary (c o : ℚ) :
    (rowDirection (.num c) (.num o) = "Up" ↔ o < c) ∧
    (rowDirection (.num c) (.num o) = "Down" ↔ ¬ o < c) := by
  by_cases h : o < c <;>
    simp [rowDirection, PyFloat.gt, PyFloat.lt, h]

/-- C5 counterexample: previous bar H=100/L=90, current bar H=100/L=95
is classified `Undefined` although its low differs from the previous
low, refuting the claimed equivalence with flat bar pairs. -/
theorem undefined_counterexample :
    strat_type (flatBar 100 90 0 0) (flatBar 100 95 0 1) (some "X")
      = "Undefined" ∧ (95 : ℚ) ≠ 90 :=
  ⟨rfl, by norm_num⟩

/-- C5 amended: the classifier returns `Undefined` exactly when the
current high does not exceed the previous high, the current low is not
below the previous low, and at least one of the two is an exact tie
(both equal is the special case of a fully flat pair). -/
theorem undefined_characterization (ph pl ch cl co cc : ℚ) :
    classifyVals (.num ph) (.num pl) (.num ch) (.num cl) (.num co) (.num cc)
      = "Undefined" ↔ (ch ≤ ph ∧ pl ≤ cl ∧ (ch = ph ∨ cl = pl)) := by
  rw [classifyVals_spec]
  have hl : ∀ l, labelString l = "Undefined" ↔ l = .Undefined := by
    intro l
    cases l
    case DirectionalUp c => cases c <;> decide
    case DirectionalDown c => cases c <;> decide
    all_goals decide
  rw [hl]
  simp only [classifySpec]
  generalize (if cc ≥ co then Color.Green else Color.Red) = col
  split_ifs with h1 h2 h3 h4
  · simp only [reduceCtorEq, false_iff]
    obtain ⟨hx, hy⟩ := h1
    rintro ⟨-, -, hE | hE⟩ <;> linarith
  · simp only [reduceCtorEq, false_iff]
    obtain ⟨hx, hy⟩ := h2
    rintro ⟨hA, -, -⟩
    linarith
  · simp only [reduceCtorEq, false_iff]
    rintro ⟨hA, -, -⟩
    linarith
  · simp only [reduceCtorEq, false_iff]
    rintro ⟨-, hB, -⟩
    linarith
  · refine iff_of_true rfl ⟨not_lt.mp h3, not_lt.mp h4, ?_⟩
    rcases not_and_or.mp h1 with hx | hx
    · exact Or.inl (le_antisymm (not_lt.mp h3) (not_lt.mp hx))
    · exact Or.inr (le_antisymm (not_lt.mp hx) (not_lt.mp h4))

/-- If `iloc` resolves the k-th bar from the end, at least k bars exist. -/
lemma iloc_some_le {data : List Row} {k : Nat} {r : Row}
    (h : iloc data k = some r) : k ≤ data.length := by
  unfold iloc at h
  split at h
  · next hc => exact hc.2
  · simp at h

/-- The main-timeframe history used in the 3-Month scenarios: three
quarterly bars; the middle/last pair forms an inside bar. -/
def data3M : List Row :=
  [flatBar 100 90 1 2, flatBar 110 80 3 4, flatBar 105 95 100 102]

/-- Environment serving `data3M` on the main download, a bullish monthly
open of 95, a failing weekly fetch and a quarterly open of 90. -/
def env3M : Env :=
  { download := fun _ => .ok data3M
    monthly := fun _ => .ok [flatBar 0 0 95 0]
    weekly := fun _ => .error "network failure"
    quarterly := fun _ => .ok [flatBar 0 0 90 0] }

/-- 3-Month scan, permissive filters. -/
def cfg3MAny : ScanConfig :=
  { timeframe := .ThreeMonth
    prev_patterns := []
    curr_patterns := []
    ftfc_filter := ["Any"] }

/-- 3-Month scan with a non-empty previous-pattern filter. -/
def cfg3MPrevFilter : ScanConfig :=
  { timeframe := .ThreeMonth
    prev_patterns := ["1 (Inside)"]
    curr_patterns := []
    ftfc_filter := ["Any"] }

/-- C3 counterexample: on the 3-Month timeframe the fetched history has
3 bars, `classify(bar[-3], bar[-2])` is a real label, yet the emitted
previous pattern is the `"N/A (3M)"` marker — refuting the claim that
3 bars always yield a computed previous pattern. -/
theorem prev_pattern_3m_counterexample :
    env3M.download "AAPL" = .ok data3M ∧ data3M.length = 3 ∧
    (scanLoop env3M cfg3MAny ["AAPL"]).map (fun r => r.prev_candle)
      = ["N/A (3M)"] ∧
    strat_type (flatBar 100 90 1 2) (flatBar 110 80 3 4) (some "AAPL")
      = "3 (Outside)" :=
  ⟨rfl, rfl, rfl, rfl⟩

/-- C3 amended: on the standard timeframes the pipeline computes
previous = classify(bar[-3], bar[-2]) and current =
classify(bar[-2], bar[-1]); on the 3-Month timeframe the previous
pattern is always the `"N/A (3M)"` marker whenever at least 2 bars
exist, regardless of how many bars were fetched. -/
theorem pattern_positions_amended (data : List Row) (ticker : String) :
    (∀ pp p c, iloc data 3 = some pp → iloc data 2 = some p →
      iloc data 1 = some c →
      computePatterns false data ticker
        = some (strat_type pp p (some ticker),
                strat_type p c (some ticker), c)) ∧
    (∀ p c, iloc data 2 = some p → iloc data 1 = some c →
      computePatterns true data ticker
        = some ("N/A (3M)", strat_type p c (some ticker), c)) := by
  constructor
  · intro pp p c h3 h2 h1
    simp [computePatterns, h3, h2, h1]
  · intro p c h2 h1
    have hlen : 2 ≤ data.length := iloc_some_le h2
    simp [computePatterns, hlen, h2, h1]

/-- Witness for C3 amended at the concrete 3-bar history. -/
theorem pattern_positions_amended_witness :
    computePatterns true data3M "AAPL"
      = some ("N/A (3M)",
              strat_type (flatBar 110 80 3 4) (flatBar 105 95 100 102) (some "AAPL"),
              flatBar 105 95 100 102) :=
  (pattern_positions_amended data3M "AAPL").2
    (flatBar 110 80 3 4) (flatBar 105 95 100 102) rfl rfl

/-- C4 counterexample: in the 3-Month scan the previous-pattern filter
is the non-empty `["1 (Inside)"]`, the symbol's previous pattern is
`"N/A (3M)"`, and the symbol is nonetheless emitted — refuting the
claim that a non-empty previous-pattern selection excludes it. -/
theorem na_prev_filter_counterexample :
    cfg3MPrevFilter.prev_patterns = ["1 (Inside)"] ∧
    (scanLoop env3M cfg3MPrevFilter ["AAPL"]).map
        (fun r => (r.ticker, r.prev_candle))
      = [("AAPL", "N/A (3M)")] :=
  ⟨rfl, rfl⟩

/-- C4 amended: when the previous pattern is the `"N/A (3M)"` marker the
previous-pattern filter is ignored entirely — the pattern-filter
decision equals the current-filter test alone, for every
previous-pattern selection, empty or not. -/
theorem na_prev_filter_bypassed (prev_patterns curr_patterns : List String)
    (c : String) :
    patternMatch true prev_patterns curr_patterns "N/A (3M)" c
      = (curr_patterns.isEmpty || curr_patterns.contains c) := by
  simp [patternMatch]

/-- A stored cell value `float(...)` accepts: a number or a NaN. -/
def usableVal : Option Value → Bool
  | some (.num _) => true
  | some .nan => true
  | _ => false

/-- The one value `get_val` consults: the flat column on a flat row;
on a MultiIndexed row the (col, ticker) entry when the hint is supplied
and present, otherwise the first level-0 match under col. `get_val`
succeeds exactly when this value exists and converts (the fallback
never rescues a failed attempt). -/
def hasUsable (row : Row) (col : String) (ticker : Option String) : Bool :=
  match row with
  | .flat es => usableVal (lookupFlat es col)
  | .multi es =>
    match ticker with
    | some t =>
      match lookupMulti es col t with
      | some v => usableVal (some v)
      | none => usableVal (firstAtCol es col)
    | none => usableVal (firstAtCol es col)

/-- C6 counterexample: a flat row whose High is NaN does not produce an
extraction error — `float(nan)` succeeds and `get_val` returns NaN,
refuting the claim that a NaN value causes the error. -/
theorem nan_extraction_counterexample :
    get_val (Row.flat [("High", Value.nan)]) "High" none
      = .ok PyFloat.nan :=
  rfl

/-- C6 amended: `get_val` signals an extraction error exactly when the
value it consults is missing or not float-convertible — on a flat row
the value under the field name; on a MultiIndexed row the
(field, ticker) entry when the hint is supplied and present, otherwise
the first value under the field (the final `float(row[col])` fallback
on a MultiIndexed row always re-raises, never rescuing a failed
attempt) — and no default is ever substituted; but a stored NaN
converts successfully and is returned as NaN; on success the flat
field's numeric value is returned as a float. -/
theorem get_val_error_characterization (row : Row) (col : String)
    (t : Option String) :
    ((get_val row col t).isOk = hasUsable row col t) ∧
    (∀ es q, lookupFlat es col = some (.num q) →
      get_val (.flat es) col t = .ok (.num q)) ∧
    (∀ es, lookupFlat es col = some .nan →
      get_val (.flat es) col t = .ok .nan) := by
  refine ⟨?_, ?_, ?_⟩
  · cases row with
    | flat es =>
      cases h : lookupFlat es col with
      | none => simp [get_val, hasUsable, usableVal, h, Except.isOk, Except.toBool]
      | some v =>
        cases v <;> simp [get_val, hasUsable, usableVal, toFloat, h, Except.isOk, Except.toBool]
    | multi es =>
      cases t with
      | none =>
        cases h : firstAtCol es col with
        | none =>
          simp [get_val, hasUsable, usableVal, multiFallback, h, Except.isOk, Except.toBool]
        | some v =>
          cases v <;>
            simp [get_val, hasUsable, usableVal, toFloat, multiFallback, h,
              Except.isOk, Except.toBool]
      | some tk =>
        cases h1 : lookupMulti es col tk with
        | none =>
          cases h2 : firstAtCol es col with
          | none =>
            simp [get_val, hasUsable, usableVal, multiFallback, h1, h2,
              Except.isOk, Except.toBool]
          | some v =>
            cases v <;>
              simp [get_val, hasUsable, usableVal, toFloat, multiFallback, h1, h2,
                Except.isOk, Except.toBool]
        | some v =>
          cases v with
          | num q => simp [get_val, hasUsable, usableVal, toFloat, h1, Except.isOk, Except.toBool]
          | nan => simp [get_val, hasUsable, usableVal, toFloat, h1, Except.isOk, Except.toBool]
          | nonNumeric =>
            cases h2 : firstAtCol es col with
            | none =>
              simp [get_val, hasUsable, usableVal, toFloat, multiFallback, h1, h2,
                Except.isOk, Except.toBool]
            | some w =>
              simp [get_val, hasUsable, usableVal, toFloat, multiFallback, h1, h2,
                Except.isOk, Except.toBool]
  · intro es q hlk
    simp [get_val, hlk, toFloat]
  · intro es hlk
    simp [get_val, hlk, toFloat]

/-- Witness for C6 amended: a present numeric Close is returned as-is,
and a MultiIndexed row whose (High, A) entry is non-numeric errors even
though a numeric sibling sits under the same column. -/
theorem get_val_error_characterization_witness :
    get_val (.flat [("Close", Value.num 7)]) "Close" none = .ok (.num 7) ∧
    (get_val (.multi [(("High", "B"), Value.num 5),
        (("High", "A"), Value.nonNumeric)]) "High" (some "A")).isOk = false :=
  ⟨(get_val_error_characterization (.flat [("Close", Value.num 7)]) "Close"
      none).2.1 [("Close", Value.num 7)] 7 rfl,
   ((get_val_error_characterization
      (.multi [(("High", "B"), Value.num 5), (("High", "A"), Value.nonNumeric)])
      "High" (some "A")).1).trans rfl⟩

/-- Unfolding of `calculate_ftfc` with its lets flattened (helper). -/
lemma calculate_ftfc_eq (env : Env) (t : String) (cc : PyFloat) (q : Bool) :
    calculate_ftfc env t cc q =
      if ((ftfcLeg (env.monthly t) t cc "M").toList
          ++ (secondaryLeg env t cc q).toList).isEmpty then "N/A"
      else String.intercalate ", "
        ((ftfcLeg (env.monthly t) t cc "M").toList
          ++ (secondaryLeg env t cc q).toList) :=
  rfl

/-- C7: each continuity leg tags Bullish when the reference close is
above the fetched open, Bearish when below, and nothing on equality, a
failed or empty fetch, or a non-comparable value; the composite is the
Monthly tag followed by the secondary tag joined with ", ", or the
"N/A" sentinel when no leg resolved. (The evaluator is a total
function: provider failures enter as explicit `Except.error` values and
are consumed here, never re-raised.) -/
theorem ftfc_composition (env : Env) (t : String) (cc : PyFloat) (q : Bool) :
    (∀ e period, ftfcLeg (.error e) t cc period = none) ∧
    (∀ period, ftfcLeg (.ok []) t cc period = none) ∧
    (∀ period data b o, data.getLast? = some b → openOf b t = .ok o →
      ftfcLeg (.ok data) t cc period
        = (if cc.gt o then some (period ++ ": Bullish")
           else if cc.lt o then some (period ++ ": Bearish") else none)) ∧
    (∀ a b, ftfcLeg (env.monthly t) t cc "M" = some a →
      secondaryLeg env t cc q = some b →
      calculate_ftfc env t cc q = a ++ ", " ++ b) ∧
    (∀ a, ftfcLeg (env.monthly t) t cc "M" = some a →
      secondaryLeg env t cc q = none →
      calculate_ftfc env t cc q = a) ∧
    (∀ b, ftfcLeg (env.monthly t) t cc "M" = none →
      secondaryLeg env t cc q = some b →
      calculate_ftfc env t cc q = b) ∧
    (ftfcLeg (env.monthly t) t cc "M" = none →
      secondaryLeg env t cc q = none →
      calculate_ftfc env t cc q = "N/A") := by
  refine ⟨fun e period => rfl, fun period => rfl, ?_, ?_, ?_, ?_, ?_⟩
  · intro period data b o hb ho
    cases data with
    | nil => simp at hb
    | cons x xs =>
      simp only [ftfcLeg, List.isEmpty_cons, Bool.false_eq_true, if_false, hb, ho]
  · intro a b hm hs
    rw [calculate_ftfc_eq, hm, hs]
    rfl
  · intro a hm hs
    rw [calculate_ftfc_eq, hm, hs]
    rfl
  · intro b hm hs
    rw [calculate_ftfc_eq, hm, hs]
    rfl
  · intro hm hs
    rw [calculate_ftfc_eq, hm, hs]
    rfl

/-- Witness for C7: on the concrete environment the monthly leg resolves
bullish (102 > 95), the weekly fetch raised, and the composite equals
the single resolved tag. -/
theorem ftfc_composition_witness :
    calculate_ftfc env3M "AAPL" (.num 102) false = "M: Bullish" :=
  (ftfc_composition env3M "AAPL" (.num 102) false).2.2.2.2.1 "M: Bullish" rfl rfl

/-- A continuity leg resolves to nothing, a Bullish tag, or a Bearish
tag (helper). -/
lemma ftfcLeg_cases (fetched : Except String (List Row)) (t : String)
    (cc : PyFloat) (period : String) :
    ftfcLeg fetched t cc period = none ∨
    ftfcLeg fetched t cc period = some (period ++ ": Bullish") ∨
    ftfcLeg fetched t cc period = some (period ++ ": Bearish") := by
  unfold ftfcLeg
  rcases fetched with e | data
  · exact Or.inl rfl
  · repeat' split
    all_goals first
      | exact Or.inl rfl
      | exact Or.inr (Or.inl rfl)
      | exact Or.inr (Or.inr rfl)

/-- The FTFC filter in its "Both Bullish" branch (helper). -/
lemma ftfcPass_bothBullish {fl : List String} (hA : fl.contains "Any" = false)
    (hB : fl.contains "Both Bullish" = true) (s : String) :
    ftfcPass fl s = ((pyIn "M: Bullish" s && pyIn "W: Bullish" s) ||
                     (pyIn "M: Bullish" s && pyIn "Q: Bullish" s)) := by
  simp only [ftfcPass, hA, hB, Bool.false_eq_true, if_false, if_true]

/-- The FTFC filter in its "Both Bearish" branch (helper). -/
lemma ftfcPass_bothBearish {fl : List String} (hA : fl.contains "Any" = false)
    (hB : fl.contains "Both Bullish" = false)
    (hC : fl.contains "Both Bearish" = true) (s : String) :
    ftfcPass fl s = ((pyIn "M: Bearish" s && pyIn "W: Bearish" s) ||
                     (pyIn "M: Bearish" s && pyIn "Q: Bearish" s)) := by
  simp only [ftfcPass, hA, hB, hC, Bool.false_eq_true, if_false, if_true]

/-- The weekly-mode secondary leg is the Weekly leg (helper). -/
lemma secondaryLeg_false (env : Env) (t : String) (cc : PyFloat) :
    secondaryLeg env t cc false = ftfcLeg (env.weekly t) t cc "W" := rfl

/-- The quarterly-mode secondary leg is the Quarterly leg (helper). -/
lemma secondaryLeg_true (env : Env) (t : String) (cc : PyFloat) :
    secondaryLeg env t cc true = ftfcLeg (env.quarterly t) t cc "Q" := rfl

/-- C9: "Any" accepts every symbol; with "Any" unselected, "Both
Bullish" (resp. "Both Bearish") passes a symbol's composite tag exactly
when both the Monthly leg and the mode's secondary leg (Weekly, or
Quarterly in quarterly mode) resolved in that direction; with none of
the special selections, a symbol passes exactly when at least one
selected tag occurs as a substring of the composite. -/
theorem continuity_filter_semantics (env : Env) (t : String) (cc : PyFloat)
    (fl : List String) :
    (fl.contains "Any" = true → ∀ s, ftfcPass fl s = true) ∧
    (fl.contains "Any" = false → fl.contains "Both Bullish" = true →
      (ftfcPass fl (calculate_ftfc env t cc false) = true ↔
        (ftfcLeg (env.monthly t) t cc "M" = some "M: Bullish" ∧
         ftfcLeg (env.weekly t) t cc "W" = some "W: Bullish"))) ∧
    (fl.contains "Any" = false → fl.contains "Both Bullish" = true →
      (ftfcPass fl (calculate_ftfc env t cc true) = true ↔
        (ftfcLeg (env.monthly t) t cc "M" = some "M: Bullish" ∧
         ftfcLeg (env.quarterly t) t cc "Q" = some "Q: Bullish"))) ∧
    (fl.contains "Any" = false → fl.contains "Both Bullish" = false →
      fl.contains "Both Bearish" = true →
      (ftfcPass fl (calculate_ftfc env t cc false) = true ↔
        (ftfcLeg (env.monthly t) t cc "M" = some "M: Bearish" ∧
         ftfcLeg (env.weekly t) t cc "W" = some "W: Bearish"))) ∧
    (fl.contains "Any" = false → fl.contains "Both Bullish" = false →
      fl.contains "Both Bearish" = true →
      (ftfcPass fl (calculate_ftfc env t cc true) = true ↔
        (ftfcLeg (env.monthly t) t cc "M" = some "M: Bearish" ∧
         ftfcLeg (env.quarterly t) t cc "Q" = some "Q: Bearish"))) ∧
    (fl.contains "Any" = false → fl.contains "Both Bullish" = false →
      fl.contains "Both Bearish" = false →
      ∀ s, ftfcPass fl s = fl.any (fun f => pyIn f s)) := by
  refine ⟨?_, ?_, ?_, ?_, ?_, ?_⟩
  · intro hA s
    simp only [ftfcPass, hA, if_true]
  · intro hA hB
    rcases ftfcLeg_cases (env.monthly t) t cc "M" with hm | hm | hm <;>
      rcases ftfcLeg_cases (env.weekly t) t cc "W" with hw | hw | hw <;>
      · rw [calculate_ftfc_eq, secondaryLeg_false, hm, hw,
          ftfcPass_bothBullish hA hB]
        decide
  · intro hA hB
    rcases ftfcLeg_cases (env.monthly t) t cc "M" with hm | hm | hm <;>
      rcases ftfcLeg_cases (env.quarterly t) t cc "Q" with hw | hw | hw <;>
      · rw [calculate_ftfc_eq, secondaryLeg_true, hm, hw,
          ftfcPass_bothBullish hA hB]
        decide
  · intro hA hB hC
    rcases ftfcLeg_cases (env.monthly t) t cc "M" with hm | hm | hm <;>
      rcases ftfcLeg_cases (env.weekly t) t cc "W" with hw | hw | hw <;>
      · rw [calculate_ftfc_eq, secondaryLeg_false, hm, hw,
          ftfcPass_bothBearish hA hB hC]
        decide
  · intro hA hB hC
    rcases ftfcLeg_cases (env.monthly t) t cc "M" with hm | hm | hm <;>
      rcases ftfcLeg_cases (env.quarterly t) t cc "Q" with hw | hw | hw <;>
      · rw [calculate_ftfc_eq, secondaryLeg_true, hm, hw,
          ftfcPass_bothBearish hA hB hC]
        decide
  · intro hA hB hC s
    have hfl : fl.filter (fun f => f != "Any") = fl := by
      apply List.filter_eq_self.mpr
      intro a ha
      simp only [bne_iff_ne, ne_eq]
      intro h
      subst h
      simp [List.contains, List.elem_iff, ha] at hA
    simp only [ftfcPass, hA, hB, hC, Bool.false_eq_true, if_false, hfl]

/-- Witness for C9: with "Any" selected everything passes; in the
concrete environment "Both Bullish" rejects the composite because the
weekly leg never resolved. -/
theorem continuity_filter_semantics_witness :
    ftfcPass ["Any"] "N/A" = true ∧
    (ftfcPass ["Both Bullish"] (calculate_ftfc env3M "AAPL" (.num 102) false)
        = true ↔
      (ftfcLeg (env3M.monthly "AAPL") "AAPL" (.num 102) "M" = some "M: Bullish" ∧
       ftfcLeg (env3M.weekly "AAPL") "AAPL" (.num 102) "W" = some "W: Bullish")) :=
  ⟨(continuity_filter_semantics env3M "AAPL" (.num 102) ["Any"]).1 rfl "N/A",
   (continuity_filter_semantics env3M "AAPL" (.num 102) ["Both Bullish"]).2.1
     rfl rfl⟩

/-- An emitted row carries its own ticker and error-free pattern labels
(helper). -/
lemma processSymbol_some_spec {env : Env} {cfg : ScanConfig} {t : String}
    {row : ResultRow} (h : processSymbol env cfg t = some row) :
    row.ticker = t ∧ pyIn "Error" row.prev_candle = false ∧
    pyIn "Error" row.curr_candle = false := by
  unfold processSymbol at h
  repeat' split at h
  all_goals try simp_all
  all_goals
    obtain ⟨h1, h2⟩ := h
  all_goals subst h2
  all_goals simp_all

/-- The scan loop is the filterMap of the per-symbol body (helper). -/
lemma scanLoop_eq_filterMap (env : Env) (cfg : ScanConfig) (ts : List String) :
    scanLoop env cfg ts = ts.filterMap (processSymbol env cfg) := by
  induction ts with
  | nil => rfl
  | cons t ts ih =>
    cases h : processSymbol env cfg t with
    | none => simp [scanLoop, h, ih, List.filterMap_cons]
    | some row => simp [scanLoop, h, ih, List.filterMap_cons]

/-- Membership in the scan output comes from some input symbol (helper). -/
lemma scanLoop_mem {env : Env} {cfg : ScanConfig} {ts : List String}
    {row : ResultRow} (h : row ∈ scanLoop env cfg ts) :
    ∃ t, t ∈ ts ∧ processSymbol env cfg t = some row := by
  rw [scanLoop_eq_filterMap] at h
  obtain ⟨t, ht, hp⟩ := List.mem_filterMap.mp h
  exact ⟨t, ht, hp⟩

/-- Result tickers form a sublist of the input symbols (helper). -/
lemma scanLoop_tickers_sublist (env : Env) (cfg : ScanConfig)
    (ts : List String) :
    ((scanLoop env cfg ts).map ResultRow.ticker).Sublist ts := by
  induction ts with
  | nil => simp [scanLoop]
  | cons t ts ih =>
    cases h : processSymbol env cfg t with
    | none =>
      simp only [scanLoop, h]
      exact ih.cons t
    | some row =>
      simp only [scanLoop, h, List.map_cons]
      rw [(processSymbol_some_spec h).1]
      exact ih.cons₂ t

/-- Too little data skips the symbol (helper). -/
lemma processSymbol_short {env : Env} {cfg : ScanConfig} {t : String}
    {data : List Row} (hd : env.download t = .ok data)
    (hlen : data.length < min_candles_map cfg.timeframe) :
    processSymbol env cfg t = none := by
  unfold processSymbol
  rw [hd]
  simp [hlen]

/-- A raised download exception skips the symbol (helper). -/
lemma processSymbol_download_error {env : Env} {cfg : ScanConfig} {t : String}
    {e : String} (hd : env.download t = .error e) :
    processSymbol env cfg t = none := by
  unfold processSymbol
  rw [hd]

/-- An error-string pattern skips the symbol (helper). -/
lemma processSymbol_pattern_error {env : Env} {cfg : ScanConfig} {t : String}
    {data : List Row} {pc cc : String} {b : Row}
    (hd : env.download t = .ok data)
    (hcp : computePatterns (isQuarterly cfg.timeframe) data t = some (pc, cc, b))
    (herr : (pyIn "Error" pc || pyIn "Error" cc) = true) :
    processSymbol env cfg t = none := by
  unfold processSymbol
  rw [hd]
  simp [hcp, herr]

/-- C8: the scan output is the per-symbol filterMap of the input order;
a symbol whose history is empty or below the timeframe minimum is
skipped, a raised provider exception skips only its own symbol (the
scan of a concatenation is the concatenation of the scans), an
error-string classification is skipped, and the emitted tickers form a
sublist of the input symbols (order preserved). -/
theorem scan_pipeline_safety (env : Env) (cfg : ScanConfig)
    (tickers : List String) :
    scanLoop env cfg tickers = tickers.filterMap (processSymbol env cfg) ∧
    (∀ t data, env.download t = .ok data →
      data.length < min_candles_map cfg.timeframe →
      processSymbol env cfg t = none) ∧
    (∀ t e, env.download t = .error e → processSymbol env cfg t = none) ∧
    (∀ t data pc cc b, env.download t = .ok data →
      computePatterns (isQuarterly cfg.timeframe) data t = some (pc, cc, b) →
      (pyIn "Error" pc || pyIn "Error" cc) = true →
      processSymbol env cfg t = none) ∧
    (∀ xs ys, scanLoop env cfg (xs ++ ys)
      = scanLoop env cfg xs ++ scanLoop env cfg ys) ∧
    ((scanLoop env cfg tickers).map ResultRow.ticker).Sublist tickers := by
  refine ⟨scanLoop_eq_filterMap env cfg tickers, ?_, ?_, ?_, ?_,
    scanLoop_tickers_sublist env cfg tickers⟩
  · intro t data hd hlen
    exact processSymbol_short hd hlen
  · intro t e hd
    exact processSymbol_download_error hd
  · intro t data pc cc b hd hcp herr
    exact processSymbol_pattern_error hd hcp herr
  · intro xs ys
    rw [scanLoop_eq_filterMap, scanLoop_eq_filterMap, scanLoop_eq_filterMap,
      List.filterMap_append]

/-- An environment whose download raises for the symbol "BAD" and
serves the three-bar history otherwise. -/
def envMixed : Env :=
  { download := fun tk => if tk = "BAD" then .error "boom" else .ok data3M
    monthly := fun _ => .ok [flatBar 0 0 95 0]
    weekly := fun _ => .error "network failure"
    quarterly := fun _ => .ok [flatBar 0 0 90 0] }

/-- Witness for C8: the failing symbol is skipped while its neighbours
are still scanned, and only two rows come out of the three inputs. -/
theorem scan_pipeline_safety_witness :
    processSymbol envMixed cfg3MAny "BAD" = none ∧
    scanLoop envMixed cfg3MAny (["AAPL"] ++ ["BAD", "MSFT"])
      = scanLoop envMixed cfg3MAny ["AAPL"]
        ++ scanLoop envMixed cfg3MAny ["BAD", "MSFT"] ∧
    (scanLoop envMixed cfg3MAny ["AAPL", "BAD", "MSFT"]).map ResultRow.ticker
      = ["AAPL", "MSFT"] :=
  ⟨(scan_pipeline_safety envMixed cfg3MAny []).2.2.1 "BAD" "boom" rfl,
   (scan_pipeline_safety envMixed cfg3MAny []).2.2.2.2.1 ["AAPL"] ["BAD", "MSFT"],
   rfl⟩

/-- The cascade only ever returns one of the seven labels (helper). -/
lemma classifyVals_mem (a b c d e f : PyFloat) :
    classifyVals a b c d e f = "1 (Inside)" ∨ classifyVals a b c d e f = "3 (Outside)" ∨
    classifyVals a b c d e f = "2U Green" ∨ classifyVals a b c d e f = "2U Red" ∨
    classifyVals a b c d e f = "2D Green" ∨ classifyVals a b c d e f = "2D Red" ∨
    classifyVals a b c d e f = "Undefined" := by
  simp only [classifyVals]
  split_ifs <;> decide

/-- Every error rendering contains the substring "Error" (helper). -/
lemma pyIn_error_append (e : String) : pyIn "Error" ("Error: " ++ e) = true := by
  simp [pyIn, String.data_append]
  simp [listHas, listStart]

/-- C10: the classifier's value on any bar pair is one of the seven
label strings or an "Error: "-prefixed failure rendering; the scan
loop's substring check `"Error" in candle` holds exactly on the failure
renderings; and consequently no emitted result row carries a pattern
label containing "Error". -/
theorem classifier_label_invariants :
    (∀ prev curr t,
      (strat_type prev curr t = "1 (Inside)" ∨ strat_type prev curr t = "3 (Outside)" ∨
       strat_type prev curr t = "2U Green" ∨ strat_type prev curr t = "2U Red" ∨
       strat_type prev curr t = "2D Green" ∨ strat_type prev curr t = "2D Red" ∨
       strat_type prev curr t = "Undefined") ∨
      (∃ e, strat_type prev curr t = "Error: " ++ e)) ∧
    (∀ prev curr t, (pyIn "Error" (strat_type prev curr t) = true ↔
      ∃ e, strat_type prev curr t = "Error: " ++ e)) ∧
    (∀ env cfg ts row, row ∈ scanLoop env cfg ts →
      pyIn "Error" row.prev_candle = false ∧
      pyIn "Error" row.curr_candle = false) := by
  have hpart1 : ∀ prev curr t,
      (strat_type prev curr t = "1 (Inside)" ∨ strat_type prev curr t = "3 (Outside)" ∨
       strat_type prev curr t = "2U Green" ∨ strat_type prev curr t = "2U Red" ∨
       strat_type prev curr t = "2D Green" ∨ strat_type prev curr t = "2D Red" ∨
       strat_type prev curr t = "Undefined") ∨
      (∃ e, strat_type prev curr t = "Error: " ++ e) := by
    intro prev curr t
    unfold strat_type
    cases hx : extractSix prev curr t with
    | error e => exact Or.inr ⟨e, rfl⟩
    | ok v =>
      obtain ⟨a, b, c, d, e, f⟩ := v
      exact Or.inl (classifyVals_mem a b c d e f)
  refine ⟨hpart1, ?_, ?_⟩
  · intro prev curr t
    constructor
    · intro hpy
      rcases hpart1 prev curr t with h7 | he
      · rcases h7 with h | h | h | h | h | h | h <;> rw [h] at hpy <;>
          exact absurd hpy (by decide)
      · exact he
    · rintro ⟨e, he⟩
      rw [he]
      exact pyIn_error_append e
  · intro env cfg ts row hrow
    obtain ⟨t, -, hps⟩ := scanLoop_mem hrow
    exact (processSymbol_some_spec hps).2

/-- Witness for C10: the row emitted by the concrete daily scan carries
error-free pattern labels. -/
theorem classifier_label_invariants_witness :
    pyIn "Error" (ResultRow.prev_candle
      { ticker := "AAPL", prev_candle := "3 (Outside)",
        curr_candle := "1 (Inside)", direction := "Down",
        close_price := round2 (.num 100), ftfc := "M: Bullish" }) = false ∧
    pyIn "Error" (ResultRow.curr_candle
      { ticker := "AAPL", prev_candle := "3 (Outside)",
        curr_candle := "1 (Inside)", direction := "Down",
        close_price := round2 (.num 100), ftfc := "M: Bullish" }) = false :=
  classifier_label_invariants.2.2 envFlatClose cfgDailyAny ["AAPL"]
    { ticker := "AAPL", prev_candle := "3 (Outside)",
      curr_candle := "1 (Inside)", direction := "Down",
      close_price := round2 (.num 100), ftfc := "M: Bullish" }
    (by
      have hs : scanLoop envFlatClose cfgDailyAny ["AAPL"]
          = [{ ticker := "AAPL", prev_candle := "3 (Outside)",
               curr_candle := "1 (Inside)", direction := "Down",
               close_price := round2 (.num 100), ftfc := "M: Bullish" }] := rfl
      rw [hs]
      exact List.Mem.head _)
